import Mathlib

/-!
Verification development for the CharpySim Lab repository: a shallow embedding
of the energy model, the physics tick, and the run state machine, with
theorems settling the specification claims. Real-valued program quantities are
embedded as real numbers; the wall clock (Date.now) is an explicit integer
parameter; the external language-model call is an explicit function parameter.
-/

namespace Charpy

/-- Fracture classification of a material, from src/types.ts. -/
inductive FractureType where
  | Ductile
  | Brittle
  | Mixed
deriving DecidableEq

/-- Material catalog entry, from src/types.ts. -/
structure Material where
  id : String
  name : String
  type : String
  baseToughness : ℝ
  color : String
  description : String
  fractureType : FractureType

/-- Pendulum machine configuration, from src/types.ts. -/
structure PendulumConfig where
  mass : ℝ
  length : ℝ
  startAngle : ℝ

/-- Result record of one completed test, from src/types.ts. The JS id is
Date.now().toString() and the timestamp is Date.now(); the clock reading is an
explicit integer here. -/
structure TestResult where
  id : String
  timestamp : ℤ
  material : Material
  initialEnergy : ℝ
  absorbedEnergy : ℝ
  finalAngle : ℝ
  didBreak : Bool

/-- Run phase of the machine, from src/types.ts. -/
inductive SimulationState where
  | IDLE
  | SWINGING_DOWN
  | IMPACT
  | SWINGING_UP
  | OSCILLATING
  | FINISHED
deriving DecidableEq

/-- Gravitational acceleration, from src/constants.ts. -/
def GRAVITY : ℝ := 9.81

/-- Default machine configuration, from src/constants.ts. -/
def DEFAULT_CONFIG : PendulumConfig :=
  { mass := 20, length := 0.8, startAngle := 135 }

/-- First catalog material, from src/constants.ts. -/
def steel1045 : Material :=
  { id := "steel-1045", name := "Acero AISI 1045", type := "Metal",
    baseToughness := 180, color := "#64748b",
    description := "Acero de medio carbono. Alta resistencia y buena tenacidad al impacto.",
    fractureType := FractureType.Ductile }

/-- Second catalog material, from src/constants.ts. -/
def al6061 : Material :=
  { id := "al-6061", name := "Aluminio 6061", type := "Metal",
    baseToughness := 90, color := "#cbd5e1",
    description := "Aleación de aluminio endurecida. Versátil, ligera y tenacidad moderada.",
    fractureType := FractureType.Mixed }

/-- Third catalog material, from src/constants.ts. -/
def castIron : Material :=
  { id := "cast-iron", name := "Hierro Fundido Gris", type := "Metal",
    baseToughness := 15, color := "#475569",
    description := "Material frágil con baja resistencia al impacto pero alta amortiguación.",
    fractureType := FractureType.Brittle }

/-- Fourth catalog material, from src/constants.ts. -/
def titaniumGrade5 : Material :=
  { id := "titanium-grade5", name := "Titanio Grado 5", type := "Metal",
    baseToughness := 210, color := "#94a3b8",
    description := "Excelente relación resistencia-peso y resistencia a la corrosión.",
    fractureType := FractureType.Ductile }

/-- Fifth catalog material, from src/constants.ts. -/
def pvcRigid : Material :=
  { id := "pvc-rigid", name := "PVC Rígido", type := "Polímero",
    baseToughness := 10, color := "#e2e8f0",
    description := "Termoplástico común. Comportamiento frágil bajo impacto a alta velocidad.",
    fractureType := FractureType.Brittle }

/-- The material catalog, from src/constants.ts. -/
def MATERIALS : List Material :=
  [steel1045, al6061, castIron, titaniumGrade5, pvcRigid]

/-! ## Energy model

The local variables of runSimulation (src/unnamed/part_000, lines 33 to 66),
factored as named definitions in source order. -/

/-- startRad, the release angle in radians (part_000 line 35). -/
noncomputable def startRad (config : PendulumConfig) : ℝ :=
  config.startAngle * (Real.pi / 180)

/-- h1, the initial height drop (part_000 line 36). -/
noncomputable def h1 (config : PendulumConfig) : ℝ :=
  config.length * (1 - Real.cos (startRad config))

/-- pe1, the initial potential energy (part_000 line 37). -/
noncomputable def pe1 (config : PendulumConfig) : ℝ :=
  config.mass * GRAVITY * h1 config

/-- The absorbed-energy candidate before the physics constraint
(part_000 line 41, the first value of the mutable absorbed variable). -/
noncomputable def absorbedRaw (material : Material) (variance : ℝ) : ℝ :=
  material.baseToughness * (1 + variance)

/-- The absorbed variable after the physics constraint branch
(part_000 lines 44 to 48). -/
noncomputable def absorbed (config : PendulumConfig) (material : Material)
    (variance : ℝ) : ℝ :=
  if absorbedRaw material variance ≥ pe1 config then pe1 config
  else absorbedRaw material variance

/-- The didBreak variable after the physics constraint branch
(part_000 lines 43 to 48). -/
noncomputable def didBreakOf (config : PendulumConfig) (material : Material)
    (variance : ℝ) : Bool :=
  if absorbedRaw material variance ≥ pe1 config then false else true

/-- pe2, the remaining potential energy (part_000 line 51). -/
noncomputable def pe2 (config : PendulumConfig) (material : Material)
    (variance : ℝ) : ℝ :=
  pe1 config - absorbed config material variance

/-- h2, the rebound height (part_000 line 52). -/
noncomputable def h2 (config : PendulumConfig) (material : Material)
    (variance : ℝ) : ℝ :=
  pe2 config material variance / (config.mass * GRAVITY)

/-- cosBeta before the clamp (part_000 line 53). -/
noncomputable def cosBeta (config : PendulumConfig) (material : Material)
    (variance : ℝ) : ℝ :=
  1 - h2 config material variance / config.length

/-- safeCosBeta, the clamped cosine (part_000 line 54):
Math.max(-1, Math.min(1, cosBeta)). -/
noncomputable def safeCosBeta (config : PendulumConfig) (material : Material)
    (variance : ℝ) : ℝ :=
  max (-1) (min 1 (cosBeta config material variance))

/-- finalAngleRad (part_000 line 55). -/
noncomputable def finalAngleRad (config : PendulumConfig) (material : Material)
    (variance : ℝ) : ℝ :=
  Real.arccos (safeCosBeta config material variance)

/-- finalAngleDeg (part_000 line 56). -/
noncomputable def finalAngleDeg (config : PendulumConfig) (material : Material)
    (variance : ℝ) : ℝ :=
  finalAngleRad config material variance * (180 / Real.pi)

/-- The energy computation of runSimulation (part_000 lines 33 to 66): builds
the TestResult record from the configuration, the selected material, the drawn
variance, and the Date.now() clock reading. -/
noncomputable def computeOutcome (config : PendulumConfig) (material : Material)
    (variance : ℝ) (now : ℤ) : TestResult :=
  { id := toString now
    timestamp := now
    material := material
    initialEnergy := pe1 config
    absorbedEnergy := absorbed config material variance
    finalAngle := finalAngleDeg config material variance
    didBreak := didBreakOf config material variance }

/-- Modelled from the spec wording of claim C1 (spec section 4.1), for
comparison with computeOutcome: initialEnergy = mass * 9.81 * L *
(1 - cos startAngle); absorbedCandidate = baseToughness * (1 + variance);
if absorbedCandidate is at least initialEnergy then the arm is arrested, else
the specimen breaks; finalAngle = acos of the clamp to the interval from -1 to 1
of 1 - (initialEnergy - absorbedEnergy) / (mass * 9.81 * L), in degrees. -/
noncomputable def specComputeOutcome (config : PendulumConfig)
    (material : Material) (variance : ℝ) (now : ℤ) : TestResult :=
  let initialEnergy := config.mass * 9.81 * config.length *
    (1 - Real.cos (config.startAngle * (Real.pi / 180)))
  let absorbedCandidate := material.baseToughness * (1 + variance)
  let absorbedEnergy :=
    if absorbedCandidate ≥ initialEnergy then initialEnergy else absorbedCandidate
  let didBreak :=
    if absorbedCandidate ≥ initialEnergy then false else true
  let finalAngle :=
    Real.arccos (max (-1) (min 1
      (1 - (initialEnergy - absorbedEnergy) / (config.mass * 9.81 * config.length)))) *
      (180 / Real.pi)
  { id := toString now
    timestamp := now
    material := material
    initialEnergy := initialEnergy
    absorbedEnergy := absorbedEnergy
    finalAngle := finalAngle
    didBreak := didBreak }

/-! ## Run state machine and physics tick

AppState mirrors the React state owned by the App component
(src/unnamed/part_000) together with the physics ref and the specimenBroken
flag owned by SimulationCanvas (src/components/SimulationCanvas.tsx). -/

/-- The physicsState ref of SimulationCanvas (lines 29 to 33). -/
structure PhysicsState where
  angle : ℝ
  velocity : ℝ
  time : ℝ

/-- The canvas-owned visual state: the physics ref plus the specimenBroken
useState flag (SimulationCanvas lines 26 and 29). -/
structure CanvasState where
  phys : PhysicsState
  specimenBroken : Bool

/-- The combined application state relevant to the run state machine. -/
structure AppState where
  simulationState : SimulationState
  currentResult : Option TestResult
  testHistory : List TestResult
  canvas : CanvasState

/-- The trigger handler runSimulation (part_000 lines 29 to 80): a request
while the state is not IDLE returns immediately; otherwise the outcome is
computed up front, stored as the pending current result, and the machine
enters SWINGING_DOWN. The nested setTimeout callbacks it schedules are the
separate functions timeoutImpact, timeoutSwingUp and timeoutOscillate. -/
noncomputable def runSimulation (config : PendulumConfig) (material : Material)
    (variance : ℝ) (now : ℤ) (s : AppState) : AppState :=
  if s.simulationState ≠ SimulationState.IDLE then s
  else
    { s with
      currentResult := some (computeOutcome config material variance now)
      simulationState := SimulationState.SWINGING_DOWN }

/-- The 800 ms setTimeout callback scheduled by runSimulation (part_000
line 72): sets the IMPACT state unconditionally. -/
def timeoutImpact (s : AppState) : AppState :=
  { s with simulationState := SimulationState.IMPACT }

/-- The 100 ms nested setTimeout callback (part_000 line 74). -/
def timeoutSwingUp (s : AppState) : AppState :=
  { s with simulationState := SimulationState.SWINGING_UP }

/-- The 1000 ms nested setTimeout callback (part_000 line 76). -/
def timeoutOscillate (s : AppState) : AppState :=
  { s with simulationState := SimulationState.OSCILLATING }

/-- handleAnimationComplete (part_000 lines 83 to 88): returns to IDLE and, if
a pending result exists, appends it to the history. -/
def handleAnimationComplete (s : AppState) : AppState :=
  { s with
    simulationState := SimulationState.IDLE
    testHistory :=
      match s.currentResult with
      | some r => s.testHistory ++ [r]
      | none => s.testHistory }

/-- clearHistory (part_000 lines 97 to 101): empties the history and discards
the current result. -/
def clearHistory (s : AppState) : AppState :=
  { s with testHistory := [], currentResult := none }

/-- The fixed integration step of the animation loop
(SimulationCanvas line 369). -/
noncomputable def dt : ℝ := 0.016

/-- One frame of the animate loop of SimulationCanvas (lines 362 to 407),
parameterised by the config and the finalAngleResult prop. SWINGING_DOWN does
one explicit Euler step of the pendulum equation and clamps at the vertical;
SWINGING_UP eases toward the target angle; OSCILLATING follows the damped
sinusoid and, past 3 time units, invokes onAnimationComplete, which is
handleAnimationComplete of the App. The remaining states only draw. -/
noncomputable def animateTick (config : PendulumConfig) (finalAngleResult : ℝ)
    (s : AppState) : AppState :=
  match s.simulationState with
  | SimulationState.SWINGING_DOWN =>
    let acc := -(GRAVITY / config.length) * Real.sin s.canvas.phys.angle
    let v := s.canvas.phys.velocity + acc * dt
    let a := s.canvas.phys.angle + v * dt
    if a ≥ 0 then
      { s with canvas :=
          { phys := { angle := 0, velocity := v, time := s.canvas.phys.time }
            specimenBroken := true } }
    else
      { s with canvas :=
          { s.canvas with
            phys := { angle := a, velocity := v, time := s.canvas.phys.time } } }
  | SimulationState.SWINGING_UP =>
    let targetRad := finalAngleResult * (Real.pi / 180)
    let dist := targetRad - s.canvas.phys.angle
    if |dist| < 0.01 then
      { s with canvas :=
          { s.canvas with phys := { s.canvas.phys with velocity := 0 } } }
    else
      { s with canvas :=
          { s.canvas with
            phys := { s.canvas.phys with
              angle := s.canvas.phys.angle + dist * 0.05 } } }
  | SimulationState.OSCILLATING =>
    let targetRad := finalAngleResult * (Real.pi / 180)
    let t := s.canvas.phys.time + dt
    let amplitude := 0.1 * Real.exp (-t)
    let a := targetRad + Real.sin (t * 8) * amplitude
    let s2 := { s with canvas :=
      { s.canvas with
        phys := { angle := a, velocity := s.canvas.phys.velocity, time := t } } }
    if t > 3 then handleAnimationComplete s2 else s2
  | _ => s

/-- Modelled from the spec: the reset/idle signal from the surrounding control
surface (spec sections 5 and 6) has no handler in src. Per the spec wording,
returning to Idle discards the active PhysicsState and any pending
(uncommitted) result, and the canvas reset effect (SimulationCanvas lines 36
to 45) restores the start-angle-derived physics state. -/
noncomputable def resetToIdle (config : PendulumConfig) (s : AppState) : AppState :=
  { s with
    simulationState := SimulationState.IDLE
    currentResult := none
    canvas :=
      { phys :=
          { angle := -(config.startAngle * (Real.pi / 180))
            velocity := 0
            time := 0 }
        specimenBroken := false } }

/-! ## External analysis service -/

/-- analyzeResults (src/services/geminiService.ts lines 6 to 39). The external
ai.models.generateContent call is the generateContent parameter: it receives
the result list (from which the prompt string is built) and returns either a
response whose text field may be missing or empty (both falsy in JS, modelled
as Option String) or a thrown error (Except.error, the catch branch). -/
def analyzeResults (results : List TestResult)
    (generateContent : List TestResult → Except String (Option String)) : String :=
  if results.length = 0 then "No hay resultados para analizar."
  else
    match generateContent results with
    | Except.ok response =>
      match response with
      | some text =>
        if text = "" then "Análisis completo, pero no se devolvió texto." else text
      | none => "Análisis completo, pero no se devolvió texto."
    | Except.error _ =>
      "Error al generar el análisis. Por favor verifica la configuración de la API."

/-! ## Concrete sample values used by witnesses and counterexamples -/

/-- A concrete completed TestResult used as sample data. -/
def sampleResult : TestResult :=
  { id := "0", timestamp := 0, material := steel1045, initialEnergy := 1,
    absorbedEnergy := 1, finalAngle := 0, didBreak := false }

/-- A concrete application state in the OSCILLATING phase whose next tick
crosses the 3 time-unit budget. -/
def oscState : AppState :=
  { simulationState := SimulationState.OSCILLATING
    currentResult := some sampleResult
    testHistory := []
    canvas :=
      { phys := { angle := 0.5, velocity := 0, time := 3 }
        specimenBroken := true } }

/-- A concrete application state in the SWINGING_DOWN phase whose next Euler
step carries the angle across the vertical. -/
def fallState : AppState :=
  { simulationState := SimulationState.SWINGING_DOWN
    currentResult := none
    testHistory := []
    canvas :=
      { phys := { angle := 0, velocity := 1, time := 0 }
        specimenBroken := false } }

/-! ## Helper lemmas -/

/-- The arccos function is antitone on all of the reals. -/
theorem arccos_antitone {x y : ℝ} (h : x ≤ y) :
    Real.arccos y ≤ Real.arccos x := by
  simp only [Real.arccos_eq_pi_div_two_sub_arcsin]
  have := Real.monotone_arcsin h
  linarith

/-- The absorbed energy never exceeds the initial potential energy. -/
theorem absorbed_le_pe1 (config : PendulumConfig) (material : Material)
    (variance : ℝ) : absorbed config material variance ≤ pe1 config := by
  unfold absorbed
  by_cases h : absorbedRaw material variance ≥ pe1 config
  · rw [if_pos h]
  · rw [if_neg h]
    exact le_of_lt (not_le.mp h)

/-- Claim C1: for every config with positive mass and length, start angle in
the open interval from 0 to 180, every material and every variance in the
half-open interval from -0.05 to 0.05, the energy computation of runSimulation
agrees with the closed-form algorithm stated by the spec. -/
theorem computeOutcome_matches_spec (config : PendulumConfig)
    (material : Material) (variance : ℝ) (now : ℤ)
    (hm : 0 < config.mass) (hL : 0 < config.length)
    (ha0 : 0 < config.startAngle) (ha1 : config.startAngle < 180)
    (hv0 : -0.05 ≤ variance) (hv1 : variance < 0.05) :
    computeOutcome config material variance now =
      specComputeOutcome config material variance now := by
  have hE : config.mass * 9.81 * config.length *
      (1 - Real.cos (config.startAngle * (Real.pi / 180))) = pe1 config := by
    unfold pe1 h1 startRad GRAVITY
    ring
  simp only [specComputeOutcome]
  rw [hE]
  unfold computeOutcome didBreakOf finalAngleDeg finalAngleRad safeCosBeta
    cosBeta h2 pe2 absorbed absorbedRaw GRAVITY
  rw [div_div]

/-- Witness for computeOutcome_matches_spec at the default configuration with
the steel material and variance zero. -/
theorem computeOutcome_matches_spec_witness :
    0 < DEFAULT_CONFIG.mass ∧ 0 < DEFAULT_CONFIG.length ∧
    0 < DEFAULT_CONFIG.startAngle ∧ DEFAULT_CONFIG.startAngle < 180 ∧
    -0.05 ≤ (0 : ℝ) ∧ (0 : ℝ) < 0.05 ∧
    computeOutcome DEFAULT_CONFIG steel1045 0 0 =
      specComputeOutcome DEFAULT_CONFIG steel1045 0 0 := by
  refine ⟨by norm_num [DEFAULT_CONFIG], by norm_num [DEFAULT_CONFIG],
    by norm_num [DEFAULT_CONFIG], by norm_num [DEFAULT_CONFIG],
    by norm_num, by norm_num, ?_⟩
  exact computeOutcome_matches_spec DEFAULT_CONFIG steel1045 0 0
    (by norm_num [DEFAULT_CONFIG]) (by norm_num [DEFAULT_CONFIG])
    (by norm_num [DEFAULT_CONFIG]) (by norm_num [DEFAULT_CONFIG])
    (by norm_num) (by norm_num)

/-- Claim C2: for every valid input the constructed TestResult satisfies
0 ≤ absorbedEnergy ≤ initialEnergy and 0 ≤ finalAngle ≤ startAngle. -/
theorem computeOutcome_invariants (config : PendulumConfig)
    (material : Material) (variance : ℝ) (now : ℤ)
    (hm : 0 < config.mass) (hL : 0 < config.length)
    (ha0 : 0 < config.startAngle) (ha1 : config.startAngle < 180)
    (hT : 0 < material.baseToughness)
    (hv0 : -0.05 ≤ variance) (hv1 : variance < 0.05) :
    0 ≤ (computeOutcome config material variance now).absorbedEnergy ∧
    (computeOutcome config material variance now).absorbedEnergy ≤
      (computeOutcome config material variance now).initialEnergy ∧
    0 ≤ (computeOutcome config material variance now).finalAngle ∧
    (computeOutcome config material variance now).finalAngle ≤
      config.startAngle := by
  have hG : (0 : ℝ) < GRAVITY := by norm_num [GRAVITY]
  have hθ0 : 0 < startRad config := by
    unfold startRad
    exact mul_pos ha0 (by positivity)
  have hθπ : startRad config ≤ Real.pi := by
    unfold startRad
    have h180 : config.startAngle ≤ 180 := le_of_lt ha1
    calc config.startAngle * (Real.pi / 180)
        ≤ 180 * (Real.pi / 180) :=
          mul_le_mul_of_nonneg_right h180 (by positivity)
      _ = Real.pi := by ring
  have hcos_le : Real.cos (startRad config) ≤ 1 := Real.cos_le_one _
  have hcos_ge : -1 ≤ Real.cos (startRad config) := Real.neg_one_le_cos _
  have hh1 : 0 ≤ h1 config := by
    unfold h1
    exact mul_nonneg hL.le (by linarith)
  have hpe1 : 0 ≤ pe1 config := by
    unfold pe1
    exact mul_nonneg (mul_nonneg hm.le hG.le) hh1
  have hraw : 0 ≤ absorbedRaw material variance := by
    unfold absorbedRaw
    exact mul_nonneg hT.le (by linarith)
  have habs0 : 0 ≤ absorbed config material variance := by
    unfold absorbed
    by_cases h : absorbedRaw material variance ≥ pe1 config
    · rw [if_pos h]; exact hpe1
    · rw [if_neg h]; exact hraw
  have habs1 : absorbed config material variance ≤ pe1 config :=
    absorbed_le_pe1 config material variance
  have hmG : 0 < config.mass * GRAVITY := mul_pos hm hG
  have hh2_0 : 0 ≤ h2 config material variance := by
    unfold h2 pe2
    apply div_nonneg _ hmG.le
    linarith
  have hh2_1 : h2 config material variance ≤ h1 config := by
    unfold h2 pe2
    rw [div_le_iff hmG]
    have hpe : pe1 config = h1 config * (config.mass * GRAVITY) := by
      unfold pe1
      ring
    linarith
  have hcb_le1 : cosBeta config material variance ≤ 1 := by
    unfold cosBeta
    have : 0 ≤ h2 config material variance / config.length :=
      div_nonneg hh2_0 hL.le
    linarith
  have hcb_ge : Real.cos (startRad config) ≤ cosBeta config material variance := by
    unfold cosBeta
    have hdiv : h2 config material variance / config.length ≤
        1 - Real.cos (startRad config) := by
      rw [div_le_iff hL]
      have hexp : h1 config =
          (1 - Real.cos (startRad config)) * config.length := by
        unfold h1
        ring
      linarith
    linarith
  have hsafe : safeCosBeta config material variance =
      cosBeta config material variance := by
    unfold safeCosBeta
    rw [min_eq_right hcb_le1,
      max_eq_right (by linarith : (-1 : ℝ) ≤ cosBeta config material variance)]
  have hrad0 : 0 ≤ finalAngleRad config material variance :=
    Real.arccos_nonneg _
  have hradθ : finalAngleRad config material variance ≤ startRad config := by
    unfold finalAngleRad
    rw [hsafe]
    calc Real.arccos (cosBeta config material variance)
        ≤ Real.arccos (Real.cos (startRad config)) := arccos_antitone hcb_ge
      _ = startRad config := Real.arccos_cos hθ0.le hθπ
  refine ⟨?_, ?_, ?_, ?_⟩
  · show 0 ≤ absorbed config material variance
    exact habs0
  · show absorbed config material variance ≤ pe1 config
    exact habs1
  · show 0 ≤ finalAngleDeg config material variance
    unfold finalAngleDeg
    exact mul_nonneg hrad0 (by positivity)
  · show finalAngleDeg config material variance ≤ config.startAngle
    unfold finalAngleDeg
    have hstep : finalAngleRad config material variance * (180 / Real.pi) ≤
        startRad config * (180 / Real.pi) :=
      mul_le_mul_of_nonneg_right hradθ (by positivity)
    have hback : startRad config * (180 / Real.pi) = config.startAngle := by
      unfold startRad
      have hπ0 : Real.pi ≠ 0 := Real.pi_ne_zero
      field_simp
    linarith

/-- Witness for computeOutcome_invariants at the default configuration with
the steel material and variance zero. -/
theorem computeOutcome_invariants_witness :
    0 ≤ (computeOutcome DEFAULT_CONFIG steel1045 0 0).absorbedEnergy ∧
    (computeOutcome DEFAULT_CONFIG steel1045 0 0).absorbedEnergy ≤
      (computeOutcome DEFAULT_CONFIG steel1045 0 0).initialEnergy ∧
    0 ≤ (computeOutcome DEFAULT_CONFIG steel1045 0 0).finalAngle ∧
    (computeOutcome DEFAULT_CONFIG steel1045 0 0).finalAngle ≤
      DEFAULT_CONFIG.startAngle :=
  computeOutcome_invariants DEFAULT_CONFIG steel1045 0 0
    (by norm_num [DEFAULT_CONFIG]) (by norm_num [DEFAULT_CONFIG])
    (by norm_num [DEFAULT_CONFIG]) (by norm_num [DEFAULT_CONFIG])
    (by norm_num [steel1045]) (by norm_num) (by norm_num)

/-- Claim C3: the constructed TestResult has didBreak equal to false exactly
when absorbedEnergy equals initialEnergy; proved for every input, which covers
every valid input. -/
theorem didBreak_iff_arrested (config : PendulumConfig) (material : Material)
    (variance : ℝ) (now : ℤ) :
    (computeOutcome config material variance now).didBreak = false ↔
      (computeOutcome config material variance now).absorbedEnergy =
        (computeOutcome config material variance now).initialEnergy := by
  show didBreakOf config material variance = false ↔
    absorbed config material variance = pe1 config
  unfold didBreakOf absorbed
  by_cases h : absorbedRaw material variance ≥ pe1 config
  · rw [if_pos h, if_pos h]
    simp
  · rw [if_neg h, if_neg h]
    simp
    exact (not_le.mp h).ne

/-- Counterexample to claim C7 as stated: the TestResult takes its id and
timestamp fields from Date.now(), so two calls with identical config, material
and variance made at different clock readings differ in the timestamp field. -/
theorem computeOutcome_timestamp_differs :
    (computeOutcome DEFAULT_CONFIG steel1045 0 0).timestamp ≠
      (computeOutcome DEFAULT_CONFIG steel1045 0 1).timestamp := by
  show (0 : ℤ) ≠ 1
  decide

/-- Claim C7 amended: two calls of the energy computation with the same
config, material and variance return TestResults identical in the material,
initialEnergy, absorbedEnergy, finalAngle and didBreak fields; only the id and
timestamp fields depend on the clock reading. -/
theorem computeOutcome_pure_physics_fields (config : PendulumConfig)
    (material : Material) (variance : ℝ) (now1 now2 : ℤ) :
    (computeOutcome config material variance now1).material =
      (computeOutcome config material variance now2).material ∧
    (computeOutcome config material variance now1).initialEnergy =
      (computeOutcome config material variance now2).initialEnergy ∧
    (computeOutcome config material variance now1).absorbedEnergy =
      (computeOutcome config material variance now2).absorbedEnergy ∧
    (computeOutcome config material variance now1).finalAngle =
      (computeOutcome config material variance now2).finalAngle ∧
    (computeOutcome config material variance now1).didBreak =
      (computeOutcome config material variance now2).didBreak :=
  ⟨rfl, rfl, rfl, rfl, rfl⟩

/-- Claim C4: a trigger request received while the machine state is not Idle
is a no-op, the whole application state (simulation state, pending result,
history and physics) is returned unchanged. -/
theorem trigger_not_idle_noop (config : PendulumConfig) (material : Material)
    (variance : ℝ) (now : ℤ) (s : AppState)
    (h : s.simulationState ≠ SimulationState.IDLE) :
    runSimulation config material variance now s = s := by
  unfold runSimulation
  rw [if_pos h]

/-- Witness for trigger_not_idle_noop at a concrete mid-fall state. -/
theorem trigger_not_idle_noop_witness :
    fallState.simulationState ≠ SimulationState.IDLE ∧
    runSimulation DEFAULT_CONFIG steel1045 0 0 fallState = fallState := by
  have h : fallState.simulationState ≠ SimulationState.IDLE := by
    intro hcon
    exact absurd hcon (by decide)
  exact ⟨h, trigger_not_idle_noop DEFAULT_CONFIG steel1045 0 0 fallState h⟩

/-- Claim C5: the history receives an append only at the completion fold: the
trigger, the three timeout callbacks, every non-completing tick and the
spec-modelled reset leave the history unchanged; the completing OSCILLATING
tick appends the pending result exactly once and returns the machine to IDLE;
the reset discards the pending result without touching the history. -/
theorem history_append_only_at_completion (s : AppState) :
    (∀ config material variance now,
      (runSimulation config material variance now s).testHistory =
        s.testHistory) ∧
    (timeoutImpact s).testHistory = s.testHistory ∧
    (timeoutSwingUp s).testHistory = s.testHistory ∧
    (timeoutOscillate s).testHistory = s.testHistory ∧
    (∀ config finalAngleResult,
      s.simulationState ≠ SimulationState.OSCILLATING →
      (animateTick config finalAngleResult s).testHistory = s.testHistory) ∧
    (∀ config finalAngleResult,
      s.simulationState = SimulationState.OSCILLATING →
      s.canvas.phys.time + dt ≤ 3 →
      (animateTick config finalAngleResult s).testHistory = s.testHistory) ∧
    (∀ config finalAngleResult r,
      s.simulationState = SimulationState.OSCILLATING →
      3 < s.canvas.phys.time + dt →
      s.currentResult = some r →
      (animateTick config finalAngleResult s).testHistory =
        s.testHistory ++ [r] ∧
      (animateTick config finalAngleResult s).simulationState =
        SimulationState.IDLE) ∧
    (∀ config, (resetToIdle config s).testHistory = s.testHistory ∧
      (resetToIdle config s).currentResult = none) := by
  obtain ⟨st, cr, th, cv⟩ := s
  refine ⟨?_, rfl, rfl, rfl, ?_, ?_, ?_, fun config => ⟨rfl, rfl⟩⟩
  · intro config material variance now
    unfold runSimulation
    split <;> rfl
  · intro config finalAngleResult hne
    cases st with
    | IDLE => rfl
    | SWINGING_DOWN =>
      simp only [animateTick]
      split <;> rfl
    | IMPACT => rfl
    | SWINGING_UP =>
      simp only [animateTick]
      split <;> rfl
    | OSCILLATING => exact absurd rfl hne
    | FINISHED => rfl
  · intro config finalAngleResult heq hle
    dsimp only at heq
    subst heq
    simp only [animateTick]
    rw [if_neg (not_lt.mpr hle)]
  · intro config finalAngleResult r heq hgt hcr
    dsimp only at heq hcr
    subst heq
    subst hcr
    simp only [animateTick]
    rw [if_pos hgt]
    exact ⟨rfl, rfl⟩

/-- Witness for history_append_only_at_completion at a concrete completing
oscillation state. -/
theorem history_append_only_at_completion_witness :
    (animateTick DEFAULT_CONFIG 0 oscState).testHistory =
      oscState.testHistory ++ [sampleResult] ∧
    (animateTick DEFAULT_CONFIG 0 oscState).simulationState =
      SimulationState.IDLE ∧
    (resetToIdle DEFAULT_CONFIG oscState).testHistory = oscState.testHistory ∧
    (resetToIdle DEFAULT_CONFIG oscState).currentResult = none := by
  have h := history_append_only_at_completion oscState
  have hc := h.2.2.2.2.2.2.1 DEFAULT_CONFIG 0 sampleResult rfl
    (by norm_num [oscState, dt]) rfl
  exact ⟨hc.1, hc.2, (h.2.2.2.2.2.2.2 DEFAULT_CONFIG).1,
    (h.2.2.2.2.2.2.2 DEFAULT_CONFIG).2⟩

/-- Counterexample to claim C6 as stated: a Falling tick on which the
integrated angle reaches the vertical clamps the angle to 0 and sets the
broken flag, but fires no transition, the machine stays in SWINGING_DOWN;
the transition to IMPACT is produced only by the wall-clock setTimeout
callback. -/
theorem falling_angle_zero_no_transition :
    (animateTick DEFAULT_CONFIG 0 fallState).canvas.phys.angle = 0 ∧
    (animateTick DEFAULT_CONFIG 0 fallState).canvas.specimenBroken = true ∧
    (animateTick DEFAULT_CONFIG 0 fallState).simulationState =
      SimulationState.SWINGING_DOWN := by
  have hge : (0 : ℝ) +
      ((1 : ℝ) + -(GRAVITY / DEFAULT_CONFIG.length) * Real.sin 0 * dt) * dt ≥
        0 := by
    rw [Real.sin_zero]
    norm_num [dt]
  refine ⟨?_, ?_, ?_⟩ <;>
    · simp only [animateTick, fallState]
      rw [if_pos hge]

/-- Claim C6 amended: the Falling phase is left only through the wall-clock
setTimeout callback scheduled at trigger time, which sets IMPACT; an animation
tick during SWINGING_DOWN never changes the machine state, even when the
integrated angle reaches the vertical. -/
theorem falling_phase_timer_driven (config : PendulumConfig)
    (finalAngleResult : ℝ) (s : AppState)
    (h : s.simulationState = SimulationState.SWINGING_DOWN) :
    (animateTick config finalAngleResult s).simulationState =
      SimulationState.SWINGING_DOWN ∧
    (timeoutImpact s).simulationState = SimulationState.IMPACT := by
  refine ⟨?_, rfl⟩
  simp only [animateTick, h]
  split <;> rfl

/-- Witness for falling_phase_timer_driven at a concrete mid-fall state. -/
theorem falling_phase_timer_driven_witness :
    (animateTick DEFAULT_CONFIG 0 fallState).simulationState =
      SimulationState.SWINGING_DOWN ∧
    (timeoutImpact fallState).simulationState = SimulationState.IMPACT :=
  falling_phase_timer_driven DEFAULT_CONFIG 0 fallState rfl

/-- Claim C8: a SWINGING_DOWN tick applies exactly one explicit Euler step:
angularAcceleration is -(g / L) * sin angle, the velocity gains acceleration
times dt, the angle gains the updated velocity times dt; when the updated
angle reaches or crosses the vertical it is clamped to 0 and the broken flag
is set, otherwise angle and flag follow the step; and the tick is independent
of the pending result, hence of the precomputed didBreak outcome. -/
theorem falling_tick_physics (config : PendulumConfig) (finalAngleResult : ℝ)
    (s : AppState) (h : s.simulationState = SimulationState.SWINGING_DOWN) :
    (animateTick config finalAngleResult s).canvas.phys.velocity =
      s.canvas.phys.velocity +
        -(GRAVITY / config.length) * Real.sin s.canvas.phys.angle * dt ∧
    (s.canvas.phys.angle +
        (s.canvas.phys.velocity +
          -(GRAVITY / config.length) * Real.sin s.canvas.phys.angle * dt) *
          dt ≥ 0 →
      (animateTick config finalAngleResult s).canvas.phys.angle = 0 ∧
      (animateTick config finalAngleResult s).canvas.specimenBroken = true) ∧
    (s.canvas.phys.angle +
        (s.canvas.phys.velocity +
          -(GRAVITY / config.length) * Real.sin s.canvas.phys.angle * dt) *
          dt < 0 →
      (animateTick config finalAngleResult s).canvas.phys.angle =
        s.canvas.phys.angle +
          (s.canvas.phys.velocity +
            -(GRAVITY / config.length) * Real.sin s.canvas.phys.angle * dt) *
            dt ∧
      (animateTick config finalAngleResult s).canvas.specimenBroken =
        s.canvas.specimenBroken) ∧
    (∀ r : Option TestResult,
      (animateTick config finalAngleResult
        { s with currentResult := r }).canvas =
        (animateTick config finalAngleResult s).canvas) := by
  refine ⟨?_, ?_, ?_, ?_⟩
  · simp only [animateTick, h]
    split <;> rfl
  · intro hge
    simp only [animateTick, h]
    rw [if_pos hge]
    exact ⟨rfl, rfl⟩
  · intro hlt
    simp only [animateTick, h]
    rw [if_neg (not_le.mpr hlt)]
    exact ⟨rfl, rfl⟩
  · intro r
    simp only [animateTick, h]
    by_cases hc : s.canvas.phys.angle +
        (s.canvas.phys.velocity +
          -(GRAVITY / config.length) * Real.sin s.canvas.phys.angle * dt) *
          dt ≥ 0
    · rw [if_pos hc, if_pos hc]
    · rw [if_neg hc, if_neg hc]

/-- Witness for falling_tick_physics at a concrete mid-fall state whose Euler
step crosses the vertical. -/
theorem falling_tick_physics_witness :
    (animateTick DEFAULT_CONFIG 0 fallState).canvas.phys.velocity =
      fallState.canvas.phys.velocity +
        -(GRAVITY / DEFAULT_CONFIG.length) *
          Real.sin fallState.canvas.phys.angle * dt ∧
    (animateTick DEFAULT_CONFIG 0 fallState).canvas.phys.angle = 0 ∧
    (animateTick DEFAULT_CONFIG 0 fallState).canvas.specimenBroken = true := by
  have h := falling_tick_physics DEFAULT_CONFIG 0 fallState rfl
  have hge : fallState.canvas.phys.angle +
      (fallState.canvas.phys.velocity +
        -(GRAVITY / DEFAULT_CONFIG.length) *
          Real.sin fallState.canvas.phys.angle * dt) * dt ≥ 0 := by
    show (0 : ℝ) +
      ((1 : ℝ) + -(GRAVITY / DEFAULT_CONFIG.length) * Real.sin 0 * dt) * dt ≥ 0
    rw [Real.sin_zero]
    norm_num [dt]
  exact ⟨h.1, (h.2.1 hge).1, (h.2.1 hge).2⟩

/-- Claim C9 evaluated on the code: the energy computation has no validation
and no error branch; with non-positive mass it still constructs a TestResult.
At mass -1 the constructed record has didBreak false and a negative absorbed
energy, a physically meaningless silently produced value. -/
theorem nonpositive_mass_constructs_result :
    (computeOutcome { mass := -1, length := 0.8, startAngle := 135 }
      steel1045 0 0).didBreak = false ∧
    (computeOutcome { mass := -1, length := 0.8, startAngle := 135 }
      steel1045 0 0).absorbedEnergy < 0 := by
  have hang : (135 : ℝ) * (Real.pi / 180) = Real.pi - Real.pi / 4 := by ring
  have hcos : Real.cos ((135 : ℝ) * (Real.pi / 180)) = -(Real.sqrt 2 / 2) := by
    rw [hang, Real.cos_pi_sub, Real.cos_pi_div_four]
  have hpe : pe1 { mass := -1, length := 0.8, startAngle := 135 } < 0 := by
    show (-1 : ℝ) * GRAVITY *
      ((0.8 : ℝ) * (1 - Real.cos ((135 : ℝ) * (Real.pi / 180)))) < 0
    rw [hcos]
    have hs2 : 0 ≤ Real.sqrt 2 := Real.sqrt_nonneg 2
    have hG : GRAVITY = 9.81 := rfl
    nlinarith
  have hraw : absorbedRaw steel1045 0 = 180 := by
    show (180 : ℝ) * (1 + 0) = 180
    norm_num
  have hge : absorbedRaw steel1045 0 ≥
      pe1 { mass := -1, length := 0.8, startAngle := 135 } := by
    rw [hraw]
    linarith
  constructor
  · show didBreakOf { mass := -1, length := 0.8, startAngle := 135 }
      steel1045 0 = false
    unfold didBreakOf
    rw [if_pos hge]
  · show absorbed { mass := -1, length := 0.8, startAngle := 135 }
      steel1045 0 < 0
    unfold absorbed
    rw [if_pos hge]
    exact hpe

/-- Claim C10: analyzeResults is total over its embedding: on the empty list
it returns the fixed no-results string for every possible external call, so
the result does not depend on the model; on a non-empty list whose external
call throws, the catch branch returns the fixed error string instead of
propagating the exception. -/
theorem analyzeResults_fallbacks (results : List TestResult)
    (generateContent : List TestResult → Except String (Option String)) :
    (results = [] → analyzeResults results generateContent =
      "No hay resultados para analizar.") ∧
    (results ≠ [] → ∀ e, generateContent results = Except.error e →
      analyzeResults results generateContent =
        "Error al generar el análisis. Por favor verifica la configuración de la API.") := by
  constructor
  · intro h
    subst h
    rfl
  · intro hne e herr
    unfold analyzeResults
    rw [if_neg (fun hc => hne (List.length_eq_zero.mp hc)), herr]

/-- Witness for analyzeResults_fallbacks: an always-failing external call on
the empty list and on a one-element list. -/
theorem analyzeResults_fallbacks_witness :
    analyzeResults [] (fun _ => Except.error "x") =
      "No hay resultados para analizar." ∧
    analyzeResults [sampleResult] (fun _ => Except.error "x") =
      "Error al generar el análisis. Por favor verifica la configuración de la API." := by
  constructor
  · exact (analyzeResults_fallbacks [] (fun _ => Except.error "x")).1 rfl
  · exact (analyzeResults_fallbacks [sampleResult]
      (fun _ => Except.error "x")).2 (by simp) "x" rfl

end Charpy
